import Mathlib

/-!
Shallow embedding of the ShadowWarp instant-replay recorder core
(`src/main/index.ts`, the current in-memory-buffer variant, plus the
disk-variant trim-exit handler), together with theorems checking the
natural-language specification of the repository against this embedding.

Stateful code is embedded as explicit state passing: each handler is a
function from the relevant state (and, where the handler reacts to the
environment, an explicit outcome value describing which asynchronous
events fired) to the successor state paired with the list of observable
effects it performs, in program order.
-/

set_option linter.unusedVariables false

namespace ShadowWarp

/-- The persisted configuration record (the `config` object literal in
`src/main/index.ts`). -/
structure Config where
  fps : String
  codec : String
  bitrate : String
  bufferTime : String
  outputFolder : String
  shortcut : String
  autoStart : Bool
  autoRecord : Bool
  audioDevice : String
  systemAudioDevice : String
  deriving Repr, DecidableEq

/-- The default configuration (initial value of `config`). -/
def defaultConfig : Config :=
  { fps := "60", codec := "h264_nvenc", bitrate := "15", bufferTime := "300",
    outputFolder := "", shortcut := "Alt+F10", autoStart := false, autoRecord := true,
    audioDevice := "Default", systemAudioDevice := "Default" }

/-- Numeric value of a list of decimal digit characters. -/
def digitsVal (l : List Char) : Nat :=
  l.foldl (fun acc c => acc * 10 + (c.toNat - 48)) 0

/-- JavaScript `parseInt` on the strings this program feeds it: the value of
the longest leading run of decimal digits, `none` when the string has no
leading digit (`parseInt` then yields `NaN`). -/
def jsParseInt (s : String) : Option Nat :=
  let ds := s.data.takeWhile (fun c => c.isDigit)
  if ds.isEmpty then none else some (digitsVal ds)

/-- JavaScript `parseInt(s) || d`: both `NaN` and `0` are falsy, so both fall
back to the default `d`. -/
def jsParseIntOr (s : String) (d : Nat) : Nat :=
  match jsParseInt s with
  | some 0 => d
  | some n => n
  | none => d

/-- Rendering of a JavaScript number obtained from `parseInt` inside a
template string (`NaN` prints as `"NaN"`). -/
def jsNumStr (o : Option Nat) : String :=
  match o with
  | some n => toString n
  | none => "NaN"

/-- JavaScript `codec.includes('nvenc')`: `splitOn` yields more than one
piece exactly when the (nonempty) pattern occurs in the string. -/
def hasNvenc (codec : String) : Bool :=
  (codec.splitOn "nvenc").length != 1

/-- One entry of `videoBuffer`: `{ time: Date.now(), chunk }`, with the
payload `Buffer` abstracted to its byte length `chunk.length`. -/
structure Chunk where
  time : Int
  size : Nat
  deriving Repr, DecidableEq

/-- Sum of `chunk.length` over a buffer — the true byte size the running
`totalBytes` counter is meant to track. -/
def sumBytes (buf : List Chunk) : Nat := (buf.map Chunk.size).sum

/-- `const hardLimit = 2.5 * 1024 * 1024 * 1024;` — the 2.5 GB safety cap. -/
def hardLimit : Int := 2684354560

/-- The eviction loop in the `recordProcess.stdout` data handler:
`while (videoBuffer.length > 2 && (videoBuffer[0].time < cutoff || totalBytes > hardLimit))`
shift the oldest chunk and subtract its length from `totalBytes`. -/
def evictLoop (cutoff : Int) : List Chunk → Int → List Chunk × Int
  | [], total => ([], total)
  | c :: rest, total =>
    if 2 < (c :: rest).length ∧ (c.time < cutoff ∨ hardLimit < total) then
      evictLoop cutoff rest (total - (c.size : Int))
    else (c :: rest, total)

/-- The `recordProcess.stdout` `'data'` handler (memory variant): push the
chunk with its arrival timestamp, add its length to `totalBytes`, then run
the eviction loop.  The source samples `Date.now()` twice — once for the
pushed chunk (`tPush`) and once for the cutoff computation (`tNow`). -/
def onChunkData (cfg : Config) (buf : List Chunk) (total : Int)
    (tPush tNow : Int) (size : Nat) : List Chunk × Int :=
  let buf1 := buf ++ [⟨tPush, size⟩]
  let total1 := total + (size : Int)
  let bufferSecs := jsParseIntOr cfg.bufferTime 300
  let cutoff := tNow - ((bufferSecs : Int) + 15) * 1000
  evictLoop cutoff buf1 total1

lemma evictLoop_sum (cutoff : Int) :
    ∀ (buf : List Chunk) (total : Int), total = (sumBytes buf : Int) →
      (evictLoop cutoff buf total).2 = (sumBytes (evictLoop cutoff buf total).1 : Int) := by
  intro buf
  induction buf with
  | nil => intro total h; simpa [evictLoop, sumBytes] using h
  | cons c rest ih =>
    intro total h
    rw [evictLoop]
    split
    · apply ih
      have : sumBytes (c :: rest) = c.size + sumBytes rest := by
        simp [sumBytes]
      rw [h, this]
      push_cast
      ring
    · simpa using h

lemma evictLoop_suffix (cutoff : Int) :
    ∀ (buf : List Chunk) (total : Int), (evictLoop cutoff buf total).1 <:+ buf := by
  intro buf
  induction buf with
  | nil => intro total; simp [evictLoop]
  | cons c rest ih =>
    intro total
    rw [evictLoop]
    split
    · exact (ih _).trans (List.suffix_cons c rest)
    · exact List.suffix_refl _

lemma evictLoop_length (cutoff : Int) :
    ∀ (buf : List Chunk) (total : Int),
      min buf.length 2 ≤ (evictLoop cutoff buf total).1.length := by
  intro buf
  induction buf with
  | nil => intro total; simp [evictLoop]
  | cons c rest ih =>
    intro total
    rw [evictLoop]
    split
    · rename_i hcond
      have hlen : 2 < (c :: rest).length := hcond.1
      have h2 : min rest.length 2 = 2 := by
        simp only [List.length_cons] at hlen
        omega
      have := ih (total - (c.size : Int))
      rw [h2] at this
      omega
    · simp

lemma evictLoop_exit (cutoff : Int) :
    ∀ (buf : List Chunk) (total : Int) (hd : Chunk) (tl : List Chunk),
      (evictLoop cutoff buf total).1 = hd :: tl →
      2 < (evictLoop cutoff buf total).1.length →
      cutoff ≤ hd.time ∧ (evictLoop cutoff buf total).2 ≤ hardLimit := by
  intro buf
  induction buf with
  | nil =>
    intro total hd tl h
    simp [evictLoop] at h
  | cons c rest ih =>
    intro total hd tl h hlen
    rw [evictLoop] at h hlen ⊢
    by_cases hcond : 2 < (c :: rest).length ∧ (c.time < cutoff ∨ hardLimit < total)
    · rw [if_pos hcond] at h hlen ⊢
      exact ih _ hd tl h hlen
    · rw [if_neg hcond] at h hlen ⊢
      have hc : hd = c := by
        simpa using congrArg (List.head? ·) h.symm
      simp only [List.length_cons] at hlen
      push_neg at hcond
      have := hcond (by simp; omega)
      subst hc
      exact ⟨this.1, this.2⟩

/-- C5 core: `onChunkData` never drops the buffer below two chunks (when at
least two exist after the append), and whenever more than two chunks remain,
every retained chunk is at least as recent as the cutoff
`now − (bufferSecs + 15) s` and the retained bytes stay within the cap. -/
theorem append_evict_retention (cfg : Config) (buf : List Chunk) (total : Int)
    (tPush tNow : Int) (size : Nat)
    (hpair : (buf ++ [(⟨tPush, size⟩ : Chunk)]).Pairwise (fun a b : Chunk => a.time ≤ b.time))
    (hsum : total = (sumBytes buf : Int)) :
    min (buf.length + 1) 2 ≤ (onChunkData cfg buf total tPush tNow size).1.length ∧
    (2 < (onChunkData cfg buf total tPush tNow size).1.length →
      (∀ c ∈ (onChunkData cfg buf total tPush tNow size).1,
          tNow - ((jsParseIntOr cfg.bufferTime 300 : Int) + 15) * 1000 ≤ c.time) ∧
      (sumBytes (onChunkData cfg buf total tPush tNow size).1 : Int) ≤ hardLimit) := by
  have hsum1 : total + (size : Int) = (sumBytes (buf ++ [⟨tPush, size⟩]) : Int) := by
    rw [hsum]
    simp [sumBytes]
  set cutoff := tNow - ((jsParseIntOr cfg.bufferTime 300 : Int) + 15) * 1000 with hcut
  have hres : onChunkData cfg buf total tPush tNow size =
      evictLoop cutoff (buf ++ [⟨tPush, size⟩]) (total + (size : Int)) := rfl
  constructor
  · rw [hres]
    have := evictLoop_length cutoff (buf ++ [⟨tPush, size⟩]) (total + (size : Int))
    simpa using this
  · intro hlen
    rw [hres] at hlen ⊢
    set r := evictLoop cutoff (buf ++ [⟨tPush, size⟩]) (total + (size : Int)) with hr
    obtain ⟨hd, tl, hht⟩ : ∃ hd tl, r.1 = hd :: tl := by
      cases h : r.1 with
      | nil => rw [h] at hlen; simp at hlen
      | cons a b => exact ⟨a, b, rfl⟩
    have hexit := evictLoop_exit cutoff (buf ++ [⟨tPush, size⟩]) (total + (size : Int)) hd tl
      (by rw [← hr]; exact hht) (by rw [← hr]; exact hlen)
    have hsuffix : r.1 <:+ (buf ++ [⟨tPush, size⟩]) := by
      rw [hr]; exact evictLoop_suffix _ _ _
    have hpr : r.1.Pairwise (fun a b => a.time ≤ b.time) :=
      hpair.sublist hsuffix.sublist
    constructor
    · intro c hc
      rw [hht] at hc hpr
      rcases List.mem_cons.mp hc with rfl | hc
      · exact hexit.1
      · have : hd.time ≤ c.time := (List.pairwise_cons.mp hpr).1 c hc
        exact le_trans hexit.1 this
    · have hs := evictLoop_sum cutoff (buf ++ [⟨tPush, size⟩]) (total + (size : Int)) hsum1
      rw [← hr] at hs
      rw [← hs]
      exact hexit.2

/-- Witness for `append_evict_retention` at a concrete input. -/
theorem append_evict_retention_witness :
    ([(⟨0, 10⟩ : Chunk), ⟨1, 10⟩] ++ [(⟨2, 10⟩ : Chunk)]).Pairwise (fun a b : Chunk => a.time ≤ b.time) ∧
    (20 : Int) = (sumBytes [(⟨0, 10⟩ : Chunk), ⟨1, 10⟩] : Int) ∧
    (min ([(⟨0, 10⟩ : Chunk), ⟨1, 10⟩].length + 1) 2 ≤
      (onChunkData defaultConfig [⟨0, 10⟩, ⟨1, 10⟩] 20 2 2 10).1.length ∧
    (2 < (onChunkData defaultConfig [⟨0, 10⟩, ⟨1, 10⟩] 20 2 2 10).1.length →
      (∀ c ∈ (onChunkData defaultConfig [⟨0, 10⟩, ⟨1, 10⟩] 20 2 2 10).1,
          (2 : Int) - ((jsParseIntOr defaultConfig.bufferTime 300 : Int) + 15) * 1000 ≤ c.time) ∧
      (sumBytes (onChunkData defaultConfig [⟨0, 10⟩, ⟨1, 10⟩] 20 2 2 10).1 : Int) ≤ hardLimit)) :=
  ⟨by decide, by decide,
    append_evict_retention defaultConfig [⟨0, 10⟩, ⟨1, 10⟩] 20 2 2 10 (by decide) (by decide)⟩

/-- JavaScript `arr[0] || d`: `undefined` (empty array) and the empty string
are both falsy, so both fall back to `d`. -/
def jsIndexZeroOr (l : List String) (d : String) : String :=
  match l with
  | [] => d
  | x :: _ => if x == "" then d else x

/-- Observable side effects performed by the handlers, in program order. -/
inductive Effect
  | ensureDirEff (dir : String)
  | cleanTempDir
  | spawnPipeline (args : List String)
  | endStdin
  | killSignal (sig : String)
  | armKillTimer (ms : Nat)
  | armRestartTimer (ms : Nat)
  | saveConfigToDisk (cfg : Config)
  | sendRecordingState (b : Bool)
  | sendStartSystemAudio
  | sendStopSystemAudio
  | setLoginItems (openAtLogin : Bool)
  | notify (body : String)
  | writeTempDump
  | spawnExtract (args : List String)
  | unlinkTempDump
  | unlinkTempConcat
  | unlinkOutput
  deriving Repr, DecidableEq

/-- The module-level mutable state of `src/main/index.ts` (memory variant)
relevant to recording and extraction.  `hasRecordProcess` models
`recordProcess !== null`, `hasWindow` models
`mainWindow && !mainWindow.isDestroyed()`. -/
structure AppState where
  isRecording : Bool
  isSavingReplay : Bool
  useSystemAudio : Bool
  hasRecordProcess : Bool
  hasWindow : Bool
  videoBuffer : List Chunk
  totalBytes : Int
  config : Config
  deriving Repr, DecidableEq

/-- The FFmpeg argument construction inside `startRecording` (memory
variant, `src/main/index.ts` lines 712–792), as a pure function of the
configuration and the detected audio device list. -/
def buildArgs (cfg : Config) (currentDevices : List String) : List String :=
  let useSystemAudio := cfg.systemAudioDevice != "None"
  let args := ["-y"]
  let args := args ++
    (if useSystemAudio then
      ["-thread_queue_size", "4096", "-f", "webm", "-i", "pipe:0"]
    else [])
  let fpsNum := jsParseIntOr cfg.fps 60
  let args := args ++
    ["-init_hw_device", "d3d11va=dx11", "-filter_hw_device", "dx11",
     "-thread_queue_size", "4096", "-f", "lavfi",
     "-i", s!"ddagrab=framerate={fpsNum}:draw_mouse=1"]
  let videoInputIndex : Nat := if useSystemAudio then 1 else 0
  let sysAudioInputIndex : Int := if useSystemAudio then 0 else -1
  let mappedMic :=
    if cfg.audioDevice == "Default" then jsIndexZeroOr currentDevices "None"
    else cfg.audioDevice
  let micInputIndex : Nat := if useSystemAudio then 2 else 1
  let micOn := mappedMic != "" && mappedMic != "None" && currentDevices.contains mappedMic
  let args := args ++
    (if micOn then
      ["-thread_queue_size", "4096", "-f", "dshow", "-i", s!"audio={mappedMic}"]
    else [])
  let audioInputs := (if useSystemAudio then 1 else 0) + (if micOn then 1 else 0)
  let args := args ++ ["-map", s!"{videoInputIndex}:v"]
  let args := args ++
    (if audioInputs == 1 && useSystemAudio then
      ["-map", s!"{sysAudioInputIndex}:a", "-c:a", "aac", "-b:a", "256k"]
    else if audioInputs == 1 && !useSystemAudio then
      ["-map", s!"{micInputIndex}:a", "-c:a", "aac", "-b:a", "256k"]
    else if audioInputs == 2 then
      ["-filter_complex",
       s!"[{sysAudioInputIndex}:a][{micInputIndex}:a]amix=inputs=2:duration=longest[aout]",
       "-map", "[aout]", "-c:a", "aac", "-b:a", "256k"]
    else [])
  let codec := cfg.codec
  let bitrate := cfg.bitrate
  args ++ ["-vf", "hwdownload,format=bgra", "-c:v", codec]
    ++ (if hasNvenc codec then ["-preset", "p5"] else ["-preset", "ultrafast"])
    ++ ["-b:v", s!"{bitrate}M", "-vsync", "cfr", "-g", toString (fpsNum * 2),
        "-f", "mpegts", "-mpegts_flags", "+resend_headers", "pipe:1"]

/-- `startRecording` (memory variant): guard on `isRecording`, then — in the
`fetchDevices().then` continuation, here given the resolved `currentDevices`
— compute the arguments, spawn the pipeline, reset the buffer, flip the
flags, persist the config and emit the state-change events. -/
def startRecording (s : AppState) (currentDevices : List String) : AppState × List Effect :=
  if s.isRecording then (s, [])
  else
    let useSys := s.config.systemAudioDevice != "None"
    let args := buildArgs s.config currentDevices
    let cfg1 := { s.config with autoRecord := true }
    let s1 : AppState :=
      { s with isRecording := true, useSystemAudio := useSys, hasRecordProcess := true,
               videoBuffer := [], totalBytes := 0, config := cfg1 }
    (s1,
      [Effect.ensureDirEff "shadowarp_buffers", Effect.cleanTempDir,
       Effect.spawnPipeline args, Effect.saveConfigToDisk cfg1]
      ++ (if s.hasWindow then
            [Effect.sendRecordingState true]
              ++ (if useSys then [Effect.sendStartSystemAudio] else [])
          else []))

/-- `stopRecording` (memory variant): guard on `!isRecording`, then stop the
audio relay, close stdin, send SIGINT, arm the 3 s hard-kill timer, flip the
flags, persist the config and emit the state-change event. -/
def stopRecording (s : AppState) : AppState × List Effect :=
  if !s.isRecording then (s, [])
  else
    let cfg1 := { s.config with autoRecord := false }
    let s1 : AppState :=
      { s with isRecording := false, useSystemAudio := false, config := cfg1 }
    (s1,
      (if s.hasWindow then [Effect.sendStopSystemAudio] else [])
      ++ (if s.hasRecordProcess then
            [Effect.endStdin, Effect.killSignal "SIGINT", Effect.armKillTimer 3000]
          else [])
      ++ [Effect.saveConfigToDisk cfg1]
      ++ (if s.hasWindow then [Effect.sendRecordingState false] else []))

/-- Which asynchronous events fire during one `saveReplay` execution:
the temp-dump write stream errors (so its `'finish'` event never fires), or
the dump finishes and the extract process either emits `'error'` or exits
with a code.  `artifactSize` is the size the output file happens to have;
the memory-variant exit handler never consults it. -/
inductive ExtractOutcome
  | writeError
  | procError (msg : String)
  | exited (code : Int) (artifactSize : Nat)
  deriving Repr, DecidableEq

/-- Arguments of the final extraction pass (memory variant).  The temp-dump
and output paths are timestamp-dependent and appear here as the symbolic
names `tempDump` and `outputFile`. -/
def extractArgs (cfg : Config) : List String :=
  let secs := jsNumStr (jsParseInt cfg.bufferTime)
  ["-y", "-sseof", s!"-{secs}", "-i", "tempDump", "-c", "copy",
   "-movflags", "+faststart", "outputFile"]

/-- `saveReplay` (memory variant, `src/main/index.ts` lines 884–970),
returning the final value of `isSavingReplay` together with the effects
performed.  The entry guards run before the lock is taken; once the lock is
set the rest of the execution is determined by the `ExtractOutcome`. -/
def saveReplay (s : AppState) (o : ExtractOutcome) : Bool × List Effect :=
  if !s.isRecording then (s.isSavingReplay, [])
  else if s.isSavingReplay then (s.isSavingReplay, [])
  else if s.videoBuffer.length == 0 then
    (s.isSavingReplay, [Effect.notify "No video buffered yet."])
  else if s.totalBytes < 1024 then
    (s.isSavingReplay, [Effect.notify "Not enough video buffered yet."])
  else
    match o with
    | .writeError =>
      (true, [Effect.writeTempDump])
    | .procError msg =>
      (false, [Effect.writeTempDump, Effect.spawnExtract (extractArgs s.config),
               Effect.unlinkTempDump, Effect.notify s!"Failed to save replay: {msg}"])
    | .exited code artifactSize =>
      (false,
        [Effect.writeTempDump, Effect.spawnExtract (extractArgs s.config),
         Effect.unlinkTempDump]
        ++ (if code == 0 then
              [Effect.notify "Replay saved!\nClick to view in folder."]
            else
              [Effect.notify s!"Failed to save replay. Code: {code}"]))

/-- The `trimProcess` `'exit'` handler of the disk variant
(`src/main/index.ts` lines 372–402): always delete the temp concat file and
clear the lock; on exit code `0`, stat the artifact (`outStat`, `none` when
`statSync` throws) and validate its size against the 1024-byte threshold. -/
def onTrimExit (trimCode : Int) (outStat : Option Nat) : Bool × List Effect :=
  if trimCode == 0 then
    match outStat with
    | some size =>
      if size < 1024 then
        (false, [Effect.unlinkTempConcat,
                 Effect.notify "Replay save failed: output file is empty.",
                 Effect.unlinkOutput])
      else
        (false, [Effect.unlinkTempConcat,
                 Effect.notify "Replay saved!\nClick to view in folder."])
    | none =>
      (false, [Effect.unlinkTempConcat,
               Effect.notify "Replay save failed: output file missing."])
  else
    (false, [Effect.unlinkTempConcat,
             Effect.notify s!"Failed to save replay. Code: {trimCode}"])

/-- The `newConfig` object received by the `save-config` IPC handler: a
JavaScript object in which each configuration key may be present or absent
(`undefined`). -/
structure ConfigPatch where
  fps : Option String
  codec : Option String
  bitrate : Option String
  bufferTime : Option String
  outputFolder : Option String
  shortcut : Option String
  autoStart : Option Bool
  autoRecord : Option Bool
  audioDevice : Option String
  systemAudioDevice : Option String
  deriving Repr, DecidableEq

/-- `Object.assign(config, newConfig)`: every key present in the patch
overwrites the corresponding field of `config`. -/
def assignConfig (c : Config) (p : ConfigPatch) : Config :=
  { fps := p.fps.getD c.fps, codec := p.codec.getD c.codec,
    bitrate := p.bitrate.getD c.bitrate, bufferTime := p.bufferTime.getD c.bufferTime,
    outputFolder := p.outputFolder.getD c.outputFolder,
    shortcut := p.shortcut.getD c.shortcut, autoStart := p.autoStart.getD c.autoStart,
    autoRecord := p.autoRecord.getD c.autoRecord,
    audioDevice := p.audioDevice.getD c.audioDevice,
    systemAudioDevice := p.systemAudioDevice.getD c.systemAudioDevice }

/-- JavaScript strict inequality `v !== o` where `o` may be `undefined`
(`none`): a string is never strictly equal to `undefined`. -/
def jsStrNe (v : String) (o : Option String) : Bool :=
  match o with
  | some a => v != a
  | none => true

/-- A full-config patch carrying exactly the fields of `c` — what the
renderer sends (`saveConfig({ ...config, [key]: value })`). -/
def fullPatch (c : Config) : ConfigPatch :=
  { fps := some c.fps, codec := some c.codec, bitrate := some c.bitrate,
    bufferTime := some c.bufferTime, outputFolder := some c.outputFolder,
    shortcut := some c.shortcut, autoStart := some c.autoStart,
    autoRecord := some c.autoRecord, audioDevice := some c.audioDevice,
    systemAudioDevice := some c.systemAudioDevice }

/-- The `save-config` IPC handler (memory variant, `src/main/index.ts`
lines 1113–1133): `Object.assign` the patch into `config` FIRST, update the
login item if `autoStart` changed, then test
`config.audioDevice !== newConfig.audioDevice || config.systemAudioDevice !== newConfig.systemAudioDevice`
(against the already-mutated `config`) to decide whether to stop and, after
a 3 s timer, restart recording; finally persist the config. -/
def saveConfigHandler (s : AppState) (p : ConfigPatch) : AppState × List Effect :=
  let oldAutoStart := s.config.autoStart
  let cfg := assignConfig s.config p
  let loginEffects :=
    if cfg.autoStart != oldAutoStart then [Effect.setLoginItems cfg.autoStart] else []
  let s1 : AppState := { s with config := cfg }
  if (jsStrNe cfg.audioDevice p.audioDevice
        || jsStrNe cfg.systemAudioDevice p.systemAudioDevice)
      && s.isRecording then
    let r := stopRecording s1
    (r.1, loginEffects ++ r.2
      ++ [Effect.armRestartTimer 3000, Effect.saveConfigToDisk r.1.config])
  else
    (s1, loginEffects ++ [Effect.saveConfigToDisk s1.config])

/-- A concrete idle state: not recording, lock free, empty buffer. -/
def sIdle : AppState :=
  { isRecording := false, isSavingReplay := false, useSystemAudio := false,
    hasRecordProcess := false, hasWindow := true, videoBuffer := [],
    totalBytes := 0, config := defaultConfig }

/-- A concrete actively-recording state with a well-filled buffer. -/
def sActive : AppState :=
  { sIdle with isRecording := true, hasRecordProcess := true,
               videoBuffer := [⟨0, 2000⟩, ⟨100, 2000⟩], totalBytes := 4000 }

/-- `sActive` with an extraction already in flight. -/
def sLocked : AppState := { sActive with isSavingReplay := true }

/-- Recording with the extraction lock held and an empty buffer. -/
def sLockedEmpty : AppState :=
  { sActive with isSavingReplay := true, videoBuffer := [], totalBytes := 0 }

/-- Recording, lock free, but nothing buffered yet. -/
def sEmptyActive : AppState :=
  { sActive with videoBuffer := [], totalBytes := 0 }

/-- The patch the renderer sends when the user changes the microphone
selector: the full current config with `audioDevice` replaced. -/
def devicePatch : ConfigPatch :=
  { fullPatch defaultConfig with audioDevice := some "USB Microphone" }

/-- C9: `totalBytes` tracks the true byte sum of `videoBuffer`: the
append-evict step of the stdout data handler preserves the equality, and
`startRecording` resets buffer and counter to empty and `0` together, so
the hard-byte-cap eviction test is always computed over the true size. -/
theorem totalBytes_matches_buffer (cfg : Config) (buf : List Chunk) (total : Int)
    (tPush tNow : Int) (size : Nat) (s : AppState) (devices : List String)
    (hsum : total = (sumBytes buf : Int)) (hrec : s.isRecording = false) :
    (onChunkData cfg buf total tPush tNow size).2 =
      (sumBytes (onChunkData cfg buf total tPush tNow size).1 : Int) ∧
    (startRecording s devices).1.videoBuffer = [] ∧
    (startRecording s devices).1.totalBytes = 0 := by
  refine ⟨?_, ?_, ?_⟩
  · have h := evictLoop_sum
      (tNow - ((jsParseIntOr cfg.bufferTime 300 : Int) + 15) * 1000)
      (buf ++ [⟨tPush, size⟩]) (total + (size : Int))
      (by rw [hsum]; simp [sumBytes])
    exact h
  · simp [startRecording, hrec]
  · simp [startRecording, hrec]

/-- Witness for `totalBytes_matches_buffer` at a concrete input. -/
theorem totalBytes_matches_buffer_witness :
    ((20 : Int) = (sumBytes [(⟨0, 10⟩ : Chunk), ⟨1, 10⟩] : Int)) ∧
    (sIdle.isRecording = false) ∧
    ((onChunkData defaultConfig [⟨0, 10⟩, ⟨1, 10⟩] 20 2 2 10).2 =
        (sumBytes (onChunkData defaultConfig [⟨0, 10⟩, ⟨1, 10⟩] 20 2 2 10).1 : Int) ∧
      (startRecording sIdle []).1.videoBuffer = [] ∧
      (startRecording sIdle []).1.totalBytes = 0) :=
  ⟨by decide, rfl,
    totalBytes_matches_buffer defaultConfig [⟨0, 10⟩, ⟨1, 10⟩] 20 2 2 10 sIdle []
      (by decide) rfl⟩

/-- C4: `startRecording` while already recording is a strict no-op (no
effect at all, no duplicate pipeline spawn, state unchanged), and
`stopRecording` while not recording is likewise a strict no-op. -/
theorem start_stop_idempotent (s sIn : AppState) (devices : List String)
    (h : s.isRecording = true) (h' : sIn.isRecording = false) :
    startRecording s devices = (s, []) ∧ stopRecording sIn = (sIn, []) := by
  constructor
  · simp [startRecording, h]
  · simp [stopRecording, h']

/-- Witness for `start_stop_idempotent` at concrete states. -/
theorem start_stop_idempotent_witness :
    sActive.isRecording = true ∧ sIdle.isRecording = false ∧
    (startRecording sActive [] = (sActive, []) ∧ stopRecording sIdle = (sIdle, [])) :=
  ⟨rfl, rfl, start_stop_idempotent sActive sIdle [] rfl rfl⟩

/-- C10: beyond flipping the recording state, `startRecording` sets the
persisted resume flag `config.autoRecord` to `true` and rewrites the config
file, and `stopRecording` sets it to `false` and rewrites the config file. -/
theorem start_stop_persist_autoRecord (s sIn : AppState) (devices : List String)
    (h : s.isRecording = false) (h' : sIn.isRecording = true) :
    ((startRecording s devices).1.isRecording = true ∧
     (startRecording s devices).1.config.autoRecord = true ∧
     Effect.saveConfigToDisk (startRecording s devices).1.config
       ∈ (startRecording s devices).2) ∧
    ((stopRecording sIn).1.isRecording = false ∧
     (stopRecording sIn).1.config.autoRecord = false ∧
     Effect.saveConfigToDisk (stopRecording sIn).1.config ∈ (stopRecording sIn).2) := by
  constructor
  · refine ⟨?_, ?_, ?_⟩ <;> simp [startRecording, h]
  · refine ⟨?_, ?_, ?_⟩ <;> simp [stopRecording, h']

/-- Witness for `start_stop_persist_autoRecord` at concrete states. -/
theorem start_stop_persist_autoRecord_witness :
    sIdle.isRecording = false ∧ sActive.isRecording = true ∧
    (((startRecording sIdle []).1.isRecording = true ∧
      (startRecording sIdle []).1.config.autoRecord = true ∧
      Effect.saveConfigToDisk (startRecording sIdle []).1.config
        ∈ (startRecording sIdle []).2) ∧
     ((stopRecording sActive).1.isRecording = false ∧
      (stopRecording sActive).1.config.autoRecord = false ∧
      Effect.saveConfigToDisk (stopRecording sActive).1.config
        ∈ (stopRecording sActive).2)) :=
  ⟨rfl, rfl, start_stop_persist_autoRecord sIdle sActive [] rfl rfl⟩

/-- C3: a `saveReplay` request arriving while `isSavingReplay` is `true`
returns immediately with no effect whatsoever — no file written, no process
spawned, no notification — and leaves the lock (and hence the in-flight
extraction) untouched. -/
theorem saveReplay_single_flight (s : AppState) (o : ExtractOutcome)
    (h : s.isSavingReplay = true) :
    saveReplay s o = (true, []) := by
  cases hr : s.isRecording <;> simp [saveReplay, hr, h]

/-- Witness for `saveReplay_single_flight` at a concrete state. -/
theorem saveReplay_single_flight_witness :
    sLocked.isSavingReplay = true ∧
    saveReplay sLocked ExtractOutcome.writeError = (true, []) :=
  ⟨rfl, saveReplay_single_flight sLocked ExtractOutcome.writeError rfl⟩

/-- C6 counterexample: in the reachable state `sLockedEmpty` (recording,
extraction lock already held, buffer empty) a `saveReplay` invocation while
recording with an empty buffer emits NO insufficient-buffer notification —
it returns silently, refuting the claim as stated. -/
theorem saveReplay_insufficient_locked_counterexample :
    sLockedEmpty.isRecording = true ∧ sLockedEmpty.videoBuffer = [] ∧
    saveReplay sLockedEmpty ExtractOutcome.writeError = (true, []) :=
  ⟨rfl, rfl, rfl⟩

/-- C6 amended: if `saveReplay` is invoked while recording, with no
extraction already in flight, and the buffer is empty or holds fewer than
1024 bytes, then the only effect is the insufficient-buffer notification —
no temp file, no spawn, no artifact — and the lock is not taken. -/
theorem saveReplay_insufficient_buffer (s : AppState) (o : ExtractOutcome)
    (hrec : s.isRecording = true) (hlock : s.isSavingReplay = false)
    (hbuf : s.videoBuffer = [] ∨ s.totalBytes < 1024) :
    saveReplay s o = (false, [Effect.notify "No video buffered yet."]) ∨
    saveReplay s o = (false, [Effect.notify "Not enough video buffered yet."]) := by
  rcases hbuf with hb | hb
  · left; simp [saveReplay, hrec, hlock, hb]
  · by_cases hb0 : s.videoBuffer.length = 0
    · left
      have hnil : s.videoBuffer = [] := List.length_eq_zero.mp hb0
      simp [saveReplay, hrec, hlock, hnil]
    · right; simp [saveReplay, hrec, hlock, hb0, hb]

/-- Witness for `saveReplay_insufficient_buffer` at a concrete state. -/
theorem saveReplay_insufficient_buffer_witness :
    sEmptyActive.isRecording = true ∧ sEmptyActive.isSavingReplay = false ∧
    (sEmptyActive.videoBuffer = [] ∨ sEmptyActive.totalBytes < 1024) ∧
    (saveReplay sEmptyActive ExtractOutcome.writeError =
        (false, [Effect.notify "No video buffered yet."]) ∨
     saveReplay sEmptyActive ExtractOutcome.writeError =
        (false, [Effect.notify "Not enough video buffered yet."])) :=
  ⟨rfl, rfl, Or.inl rfl,
    saveReplay_insufficient_buffer sEmptyActive ExtractOutcome.writeError rfl rfl
      (Or.inl rfl)⟩

/-- C2 (code bug): an extraction that takes the lock and then suffers a
temp-dump write-stream failure ends with `isSavingReplay` still `true` —
the source attaches no `'error'` handler to the dump write stream, so
`'finish'` never fires and no handler ever clears the lock. -/
theorem saveReplay_lock_stuck_on_write_error :
    sActive.isRecording = true ∧ sActive.isSavingReplay = false ∧
    (1024 : Int) ≤ sActive.totalBytes ∧
    saveReplay sActive ExtractOutcome.writeError = (true, [Effect.writeTempDump]) :=
  ⟨rfl, rfl, by decide, by decide⟩

/-- On the exit paths the source does handle — extract-process `'error'`
and `'exit'` — the lock is cleared. -/
theorem saveReplay_lock_cleared_on_handled_paths (s : AppState) (msg : String)
    (code : Int) (sz : Nat) (hlock : s.isSavingReplay = false) :
    (saveReplay s (ExtractOutcome.procError msg)).1 = false ∧
    (saveReplay s (ExtractOutcome.exited code sz)).1 = false := by
  constructor <;>
    · cases hr : s.isRecording <;>
        by_cases hb0 : s.videoBuffer.length = 0 <;>
          by_cases ht : s.totalBytes < 1024 <;>
            simp [saveReplay, hr, hlock, hb0, ht]

/-- C8 counterexample: in the memory variant, after the extract pass exits
with code `0` the success notification is emitted unconditionally — for an
artifact of only 100 bytes (< 1024) no size validation, no deletion and no
corruption notification occur. -/
theorem memory_exit_skips_size_validation :
    (100 : Nat) < 1024 ∧
    saveReplay sActive (ExtractOutcome.exited 0 100) =
      (false,
       [Effect.writeTempDump, Effect.spawnExtract (extractArgs defaultConfig),
        Effect.unlinkTempDump,
        Effect.notify "Replay saved!\nClick to view in folder."]) :=
  ⟨by decide, by decide⟩

/-- C8 amended: the disk variant's trim-exit handler does validate — on exit
code `0` an artifact smaller than 1024 bytes is deleted and a corruption
notification replaces the success one, while a large-enough artifact gets
the success notification; the memory variant's exit handler instead emits
the success notification on exit code `0` for every artifact size. -/
theorem disk_trim_validates_size (sz : Nat) :
    (sz < 1024 →
      onTrimExit 0 (some sz) =
        (false, [Effect.unlinkTempConcat,
                 Effect.notify "Replay save failed: output file is empty.",
                 Effect.unlinkOutput])) ∧
    (1024 ≤ sz →
      onTrimExit 0 (some sz) =
        (false, [Effect.unlinkTempConcat,
                 Effect.notify "Replay saved!\nClick to view in folder."])) ∧
    (saveReplay sActive (ExtractOutcome.exited 0 sz)).2.getLast? =
      some (Effect.notify "Replay saved!\nClick to view in folder.") := by
  refine ⟨?_, ?_, rfl⟩
  · intro h; simp [onTrimExit, h]
  · intro h; simp [onTrimExit, Nat.not_lt.mpr h]

/-- Witness for `disk_trim_validates_size` at concrete sizes. -/
theorem disk_trim_validates_size_witness :
    ((100 : Nat) < 1024 ∧
      onTrimExit 0 (some 100) =
        (false, [Effect.unlinkTempConcat,
                 Effect.notify "Replay save failed: output file is empty.",
                 Effect.unlinkOutput])) ∧
    ((1024 : Nat) ≤ 2048 ∧
      onTrimExit 0 (some 2048) =
        (false, [Effect.unlinkTempConcat,
                 Effect.notify "Replay saved!\nClick to view in folder."])) :=
  ⟨⟨by decide, (disk_trim_validates_size 100).1 (by decide)⟩,
   ⟨by decide, (disk_trim_validates_size 2048).2.1 (by decide)⟩⟩

/-- C1 (code bug): saving the configuration with a changed microphone
selector while recording triggers NO stop and NO restart.  The handler runs
`Object.assign(config, newConfig)` before comparing
`config.audioDevice !== newConfig.audioDevice`, so when the key is present
in the patch the comparison is always false: the only effect is the config
write, and recording continues untouched. -/
theorem saveConfig_device_change_no_restart :
    sActive.isRecording = true ∧
    sActive.config.audioDevice = "Default" ∧
    devicePatch.audioDevice = some "USB Microphone" ∧
    (saveConfigHandler sActive devicePatch).2 =
      [Effect.saveConfigToDisk { defaultConfig with audioDevice := "USB Microphone" }] ∧
    (saveConfigHandler sActive devicePatch).1.isRecording = true :=
  ⟨rfl, rfl, rfl, by decide, by decide⟩

/-- Generalisation of the C1 bug: for every state and every patch that
carries both audio-device keys (as the renderer's full-config save always
does), the restart branch of the `save-config` handler is dead — no stop
signal, no state-change event, no restart timer, recording state unchanged. -/
theorem saveConfig_full_patch_never_restarts (s : AppState) (p : ConfigPatch)
    (h1 : p.audioDevice.isSome = true) (h2 : p.systemAudioDevice.isSome = true) :
    (saveConfigHandler s p).1.isRecording = s.isRecording ∧
    (saveConfigHandler s p).2 =
      (if (assignConfig s.config p).autoStart != s.config.autoStart then
        [Effect.setLoginItems (assignConfig s.config p).autoStart] else [])
      ++ [Effect.saveConfigToDisk (assignConfig s.config p)] := by
  obtain ⟨a, ha⟩ := Option.isSome_iff_exists.mp h1
  obtain ⟨b, hb⟩ := Option.isSome_iff_exists.mp h2
  have hna : jsStrNe (assignConfig s.config p).audioDevice p.audioDevice = false := by
    simp [jsStrNe, ha, assignConfig]
  have hnb : jsStrNe (assignConfig s.config p).systemAudioDevice p.systemAudioDevice
      = false := by
    simp [jsStrNe, hb, assignConfig]
  constructor <;> simp [saveConfigHandler, hna, hnb]

/-- Whether the planner uses system audio: `config.systemAudioDevice !== 'None'`. -/
def plannerSysOn (cfg : Config) : Bool := cfg.systemAudioDevice != "None"

/-- The resolved microphone: `'Default'` maps to `currentDevices[0] || 'None'`. -/
def plannerMic (cfg : Config) (devices : List String) : String :=
  if cfg.audioDevice == "Default" then jsIndexZeroOr devices "None"
  else cfg.audioDevice

/-- Whether the microphone input is present:
`mappedMic && mappedMic !== 'None' && currentDevices.includes(mappedMic)`. -/
def plannerMicOn (cfg : Config) (devices : List String) : Bool :=
  plannerMic cfg devices != "" && plannerMic cfg devices != "None"
    && devices.contains (plannerMic cfg devices)

/-- The video map emitted by the planner: input index 1 when system audio
occupies input 0, else input index 0. -/
def videoMapArgs (cfg : Config) : List String :=
  let v : Nat := if plannerSysOn cfg then 1 else 0
  ["-map", s!"{v}:v"]

/-- Direct map of the system-audio source (one-source case). -/
def sysOnlyAudioArgs (cfg : Config) : List String :=
  let i : Int := if plannerSysOn cfg then 0 else -1
  ["-map", s!"{i}:a", "-c:a", "aac", "-b:a", "256k"]

/-- Direct map of the microphone source (one-source case). -/
def micOnlyAudioArgs (cfg : Config) : List String :=
  let m : Nat := if plannerSysOn cfg then 2 else 1
  ["-map", s!"{m}:a", "-c:a", "aac", "-b:a", "256k"]

/-- The two-source case: an `amix` filter merging system audio and
microphone into the single output track `[aout]`, which is then mapped. -/
def mixAudioArgs (cfg : Config) : List String :=
  let i : Int := if plannerSysOn cfg then 0 else -1
  let m : Nat := if plannerSysOn cfg then 2 else 1
  ["-filter_complex", s!"[{i}:a][{m}:a]amix=inputs=2:duration=longest[aout]",
   "-map", "[aout]", "-c:a", "aac", "-b:a", "256k"]

/-- Everything the planner emits before the video map: the `-y` flag, the
optional system-audio stdin input, the `ddagrab` video input and the
optional microphone `dshow` input. -/
def argsHead (cfg : Config) (devices : List String) : List String :=
  (["-y"]
    ++ (if plannerSysOn cfg then
          ["-thread_queue_size", "4096", "-f", "webm", "-i", "pipe:0"]
        else []))
  ++ (let f := jsParseIntOr cfg.fps 60
      ["-init_hw_device", "d3d11va=dx11", "-filter_hw_device", "dx11",
       "-thread_queue_size", "4096", "-f", "lavfi",
       "-i", s!"ddagrab=framerate={f}:draw_mouse=1"])
  ++ (if plannerMicOn cfg devices then
        (let m := plannerMic cfg devices
         ["-thread_queue_size", "4096", "-f", "dshow", "-i", s!"audio={m}"])
      else [])

/-- Everything the planner emits after the audio mapping: video filter,
codec, preset, bitrate, vsync, GOP and the mpegts pipe output. -/
def argsTail (cfg : Config) : List String :=
  let codec := cfg.codec
  let bitrate := cfg.bitrate
  let f := jsParseIntOr cfg.fps 60
  ["-vf", "hwdownload,format=bgra", "-c:v", codec]
  ++ (if hasNvenc codec then ["-preset", "p5"] else ["-preset", "ultrafast"])
  ++ ["-b:v", s!"{bitrate}M", "-vsync", "cfr", "-g", toString (f * 2),
      "-f", "mpegts", "-mpegts_flags", "+resend_headers", "pipe:1"]

/-- C7: the planner always maps the video input, and its audio mapping is
exactly: with both system audio and microphone present, an `amix` mixing
filter merging the two into the single output track `[aout]`; with exactly
one source present, a direct map of that source; with zero sources, no
audio mapping at all. -/
theorem buildArgs_audio_mapping (cfg : Config) (devices : List String) :
    buildArgs cfg devices =
      argsHead cfg devices ++ videoMapArgs cfg ++
      (if plannerSysOn cfg && plannerMicOn cfg devices then mixAudioArgs cfg
       else if plannerSysOn cfg then sysOnlyAudioArgs cfg
       else if plannerMicOn cfg devices then micOnlyAudioArgs cfg
       else []) ++ argsTail cfg := by
  cases hs : plannerSysOn cfg <;> cases hm : plannerMicOn cfg devices <;>
    · simp only [plannerSysOn] at hs
      simp only [plannerMicOn, plannerMic] at hm
      simp only [buildArgs, argsHead, videoMapArgs, mixAudioArgs, sysOnlyAudioArgs,
                 micOnlyAudioArgs, argsTail, plannerSysOn, plannerMicOn, plannerMic,
                 hs, hm]
      simp

end ShadowWarp
